import Mathlib

/-!
Formal model of the quiz application's core logic:
- credential hashing and verification (src/db.py, `DatabaseManager._hash_password`
  and `DatabaseManager._verify_password`),
- quiz scoring and attempt persistence (src/main.py, `QuizApp.on_quiz_completed`),
- the results-page score computation (src/ui_results.py, `ResultsWidget.calculate_score`).

Python strings are modelled as lists of characters (`Str`), bytes objects as
lists of naturals below 256, and the PBKDF2 key-derivation primitive as an
explicit function parameter (its output is an arbitrary byte string determined
by password and salt). Database calls made by `on_quiz_completed` are recorded
as an explicit trace, and the result of `db.create_quiz_attempt` is an explicit
`Option Int` parameter.
-/

namespace Quiz

/-- Python `str` values are modelled as lists of characters. -/
abbrev Str := List Char

/-- Whitespace characters removed by Python's `str.strip()` (ASCII range). -/
def isPySpace (c : Char) : Bool :=
  c = ' ' || c = '\t' || c = '\n' || c = '\r' || c = '\x0b' || c = '\x0c'

/-- Python `str.strip()`: remove leading and trailing whitespace. -/
def pyStrip (s : Str) : Str :=
  ((s.dropWhile isPySpace).reverse.dropWhile isPySpace).reverse

/-- Python `str.upper()` (ASCII range). -/
def pyUpper (s : Str) : Str :=
  s.map Char.toUpper

/-- Python `s.startswith(pat)`: first argument is the string, second the pattern. -/
def pyStartswith : Str → Str → Bool
  | _, [] => true
  | [], _ :: _ => false
  | c :: cs, p :: ps => p == c && pyStartswith cs ps

/-- Auxiliary worker for Python `str.split(sep, maxsplit)`:
first argument is the remaining split budget, second the accumulator for the
current chunk (reversed), third the remaining input. -/
def splitMaxAux (sep : Char) : Nat → Str → Str → List Str
  | _, acc, [] => [acc.reverse]
  | 0, acc, rest => [acc.reverse ++ rest]
  | k + 1, acc, c :: cs =>
      if c = sep then acc.reverse :: splitMaxAux sep k [] cs
      else splitMaxAux sep (k + 1) (c :: acc) cs

/-- Python `s.split(sep, maxsplit)` for a single-character separator. -/
def pySplit (s : Str) (sep : Char) (maxsplit : Nat) : List Str :=
  splitMaxAux sep maxsplit [] s

/-- Lower-case hexadecimal digit for a value, as produced by Python `bytes.hex()`. -/
def hexDigitChar (n : Nat) : Char :=
  if n < 10 then Char.ofNat (48 + n) else Char.ofNat (87 + n)

/-- Python `bytes.hex()`: two lower-case hex digits per byte. -/
def bytesToHex : List Nat → Str
  | [] => []
  | b :: bs => hexDigitChar (b / 16) :: hexDigitChar (b % 16) :: bytesToHex bs

/-- Value of one hexadecimal digit character (both cases), `none` otherwise. -/
def hexDigitVal (c : Char) : Option Nat :=
  if '0' ≤ c ∧ c ≤ '9' then some (c.toNat - 48)
  else if 'a' ≤ c ∧ c ≤ 'f' then some (c.toNat - 87)
  else if 'A' ≤ c ∧ c ≤ 'F' then some (c.toNat - 55)
  else none

/-- Python `bytes.fromhex()`: decode pairs of hex digits; any malformed input
(odd length, non-hex character) fails. -/
def bytesFromHex : Str → Option (List Nat)
  | [] => some []
  | [_] => none
  | c1 :: c2 :: rest => do
      let h ← hexDigitVal c1
      let l ← hexDigitVal c2
      let bs ← bytesFromHex rest
      pure ((h * 16 + l) :: bs)

/-- The algorithm-tag body `pbkdf2_sha256` (without the trailing dollar sign). -/
def tagName : Str :=
  ['p', 'b', 'k', 'd', 'f', '2', '_', 's', 'h', 'a', '2', '5', '6']

/-- The literal `pbkdf2_sha256$` that `_verify_password` tests with `startswith`. -/
def pbkdf2Tag : Str := tagName ++ ['$']

/-- The key-derivation primitive `hashlib.pbkdf2_hmac("sha256", password, salt, 200_000)`,
abstracted as a function from the password string and the salt bytes to the
derived-key bytes. -/
abbrev Kdf := Str → List Nat → List Nat

/-- `hmac.compare_digest`: semantically, equality of the two byte strings
(the constant-time aspect is a timing property, not a functional one). -/
def compareDigest (a b : List Nat) : Bool := a == b

/-- `DatabaseManager._hash_password` (src/db.py:142-147): the random salt drawn
by `os.urandom(16)` is passed explicitly; the result is
`"pbkdf2_sha256$" ++ salt.hex() ++ "$" ++ dk.hex()`. -/
def hash_password (kdf : Kdf) (salt : List Nat) (password : Str) : Str :=
  tagName ++ '$' :: (bytesToHex salt ++ '$' :: bytesToHex (kdf password salt))

/-- The parsing stage of the tagged branch of `_verify_password`
(src/db.py:158-161): `stored.split("$", 2)` must yield exactly three fields and
both hex fields must decode; any failure (caught by the bare `except`) is `none`. -/
def taggedParse (stored : Str) : Option (List Nat × List Nat) :=
  match pySplit stored '$' 2 with
  | [_, salt_hex, hash_hex] =>
      match bytesFromHex salt_hex, bytesFromHex hash_hex with
      | some salt, some expected => some (salt, expected)
      | _, _ => none
  | _ => none

/-- The tagged branch of `_verify_password` (src/db.py:157-165): parse the
stored value, re-derive the key from the candidate password and the extracted
salt, and compare; any parse failure returns `false`. -/
def taggedVerify (kdf : Kdf) (password stored : Str) : Bool :=
  match taggedParse stored with
  | some (salt, expected) => compareDigest (kdf password salt) expected
  | none => false

/-- `DatabaseManager._verify_password` (src/db.py:149-167): tagged stored values
take the PBKDF2 branch; untagged (legacy) stored values are compared directly
to the candidate password. -/
def verify_password (kdf : Kdf) (password stored : Str) : Bool :=
  if pyStartswith stored pbkdf2Tag then taggedVerify kdf password stored
  else password == stored

/-- One row of the `questions` table as carried in the quiz results dict
(`(id, question_text, correct_answer, option_a, option_b, option_c, option_d)`). -/
structure Question where
  id : Int
  question_text : Str
  correct_answer : Str
  option_a : Str
  option_b : Str
  option_c : Str
  option_d : Str
deriving DecidableEq

/-- Python `answers.get(q_id)` on the `{question_id: selected_letter}` dict,
modelled as lookup in an association list. -/
def dictGet (answers : List (Int × Str)) (k : Int) : Option Str :=
  List.lookup k answers

/-- One entry of the `per_question` list built by `QuizApp.on_quiz_completed`
(src/main.py:205-216): `(q_id, selected_letter, correct_letter, is_correct)`. -/
structure ScoredRow where
  q_id : Int
  selected_letter : Option Str
  correct_letter : Str
  is_correct : Bool
deriving DecidableEq

/-- The loop body of `QuizApp.on_quiz_completed` (src/main.py:205-216):
normalize the correct letter with strip+upper; a missing or falsy (empty)
selection is unanswered, otherwise the selection is normalized the same way;
correctness is equality of the normalized letters. -/
def scoreQuestion (answers : List (Int × Str)) (q : Question) : ScoredRow :=
  let correct_letter := pyUpper (pyStrip q.correct_answer)
  let selected_letter : Option Str :=
    match dictGet answers q.id with
    | none => none
    | some s => if s = [] then none else some (pyUpper (pyStrip s))
  let is_correct : Bool :=
    match selected_letter with
    | none => false
    | some l => l == correct_letter
  ⟨q.id, selected_letter, correct_letter, is_correct⟩

/-- A call made to the storage collaborator `db` by `on_quiz_completed`:
either `db.create_quiz_attempt(user_id, category_id, total_questions,
correct_count, answered_count)` or `db.add_attempt_answer(attempt_id,
question_id, selected_letter, correct_letter, is_correct)`. -/
inductive DbCall where
  | createAttempt (user_id category_id : Int)
      (total_questions correct_count answered_count : Nat)
  | addAnswer (attempt_id question_id : Int) (selected_letter : Option Str)
      (correct_letter : Str) (is_correct : Bool)
deriving DecidableEq

/-- Whether a storage call is an Attempt insert. -/
def DbCall.isCreate : DbCall → Bool
  | .createAttempt .. => true
  | _ => false

/-- Whether a storage call is an Attempt Answer insert. -/
def DbCall.isAnswer : DbCall → Bool
  | .addAnswer .. => true
  | _ => false

/-- The attempt id referenced by an Attempt Answer insert. -/
def DbCall.answerRef : DbCall → Option Int
  | .addAnswer attempt_id _ _ _ _ => some attempt_id
  | _ => none

/-- Observable outcome of `QuizApp.on_quiz_completed`: the computed counts and
per-question breakdown, the trace of storage calls, and whether the results
page was loaded (`self.results_page.load_results(results)` at src/main.py:237). -/
structure CompletionOutcome where
  total_questions : Nat
  answered_count : Nat
  correct_count : Nat
  per_question : List ScoredRow
  calls : List DbCall
  results_loaded : Bool
deriving DecidableEq

/-- `QuizApp.on_quiz_completed` (src/main.py:189-238). `createResult` is the
value returned by `db.create_quiz_attempt` when that call is made;
`current_user` carries the user id of `self.current_user` (or `none` when not
logged in). The persistence block runs only when
`user_id is not None and category_id > 0 and total_questions > 0`; answer rows
are inserted only when the attempt insert returned an id. The results page is
loaded unconditionally at the end. -/
def on_quiz_completed (createResult : Option Int) (current_user : Option Int)
    (category_id : Int) (questions : List Question)
    (answers : List (Int × Str)) : CompletionOutcome :=
  let total_questions := questions.length
  let answered_count := answers.length
  let per_question := questions.map (scoreQuestion answers)
  let correct_count := per_question.countP (fun r => r.is_correct)
  let calls : List DbCall :=
    match current_user with
    | none => []
    | some user_id =>
        if 0 < category_id ∧ 0 < total_questions then
          DbCall.createAttempt user_id category_id total_questions
              correct_count answered_count ::
            (match createResult with
             | some attempt_id =>
                 per_question.map (fun r =>
                   DbCall.addAnswer attempt_id r.q_id r.selected_letter
                     r.correct_letter r.is_correct)
             | none => [])
        else []
  ⟨total_questions, answered_count, correct_count, per_question, calls, true⟩

/-- One entry of the `breakdown` list built by `ResultsWidget.calculate_score`
(src/ui_results.py:108-123). -/
structure BreakdownItem where
  question : Str
  option_a : Str
  option_b : Str
  option_c : Str
  option_d : Str
  user_answer : Option Str
  correct_answer : Str
  is_correct : Bool
deriving DecidableEq

/-- The loop body of `ResultsWidget.calculate_score` (src/ui_results.py:108-123):
the raw selection (`answers.get(q_id, None)`) is compared to the raw correct
answer with plain equality (`user_answer == correct_answer`); a missing
selection compares unequal. -/
def scoreItem (answers : List (Int × Str)) (q : Question) : BreakdownItem :=
  let user_answer := dictGet answers q.id
  let is_correct : Bool :=
    match user_answer with
    | some s => s == q.correct_answer
    | none => false
  ⟨q.question_text, q.option_a, q.option_b, q.option_c, q.option_d,
    user_answer, q.correct_answer, is_correct⟩

/-- The dict returned by `ResultsWidget.calculate_score` (src/ui_results.py:128-133).
Python's float division in `correct_count / total * 100` is modelled by exact
rational division. -/
structure ScoreData where
  correct : Nat
  total : Nat
  percentage : ℚ
  breakdown : List BreakdownItem
deriving DecidableEq

/-- `ResultsWidget.calculate_score` (src/ui_results.py:93-133):
`percentage = (correct_count / total * 100) if total > 0 else 0`. -/
def calculate_score (questions : List Question) (answers : List (Int × Str)) :
    ScoreData :=
  let breakdown := questions.map (scoreItem answers)
  let correct_count := breakdown.countP (fun i => i.is_correct)
  let total := questions.length
  let percentage : ℚ :=
    if 0 < total then (correct_count : ℚ) / (total : ℚ) * 100 else 0
  ⟨correct_count, total, percentage, breakdown⟩

/-- Modelled from the spec: the spec's per-question comparison rule (§4.2):
an absent selection is not correct; a present selection is compared to the
question's correct letter case-insensitively and whitespace-trimmed. Used only
to compare the code's scoring against the spec's words. -/
def specIsCorrect (selected : Option Str) (correct : Str) : Bool :=
  match selected with
  | none => false
  | some s => pyUpper (pyStrip s) == pyUpper (pyStrip correct)

/-! ## Helper lemmas about the string and hex primitives -/

theorem pyStartswith_append (pat rest : Str) :
    pyStartswith (pat ++ rest) pat = true := by
  induction pat with
  | nil => cases rest <;> rfl
  | cons p ps ih =>
      simp [pyStartswith, ih]

theorem splitMaxAux_budget_zero (sep : Char) (acc rest : Str) :
    splitMaxAux sep 0 acc rest = [acc.reverse ++ rest] := by
  cases rest with
  | nil => simp [splitMaxAux]
  | cons c cs => rfl

theorem splitMaxAux_sep_chunk (sep : Char) (rest : Str) (l : Str) :
    ∀ (acc : Str) (k : Nat), sep ∉ l →
      splitMaxAux sep (k + 1) acc (l ++ sep :: rest) =
        (acc.reverse ++ l) :: splitMaxAux sep k [] rest := by
  induction l with
  | nil =>
      intro acc k _
      simp [splitMaxAux]
  | cons c cs ih =>
      intro acc k hmem
      have hc : ¬ c = sep := fun h => hmem (h ▸ List.mem_cons_self c cs)
      have hcs : sep ∉ cs := fun h => hmem (List.mem_cons_of_mem c h)
      rw [List.cons_append]
      have h1 : splitMaxAux sep (k + 1) acc (c :: (cs ++ sep :: rest)) =
          splitMaxAux sep (k + 1) (c :: acc) (cs ++ sep :: rest) := by
        rw [show splitMaxAux sep (k + 1) acc (c :: (cs ++ sep :: rest)) =
            (if c = sep then acc.reverse :: splitMaxAux sep k [] (cs ++ sep :: rest)
             else splitMaxAux sep (k + 1) (c :: acc) (cs ++ sep :: rest)) from rfl,
          if_neg hc]
      rw [h1, ih (c :: acc) k hcs]
      simp

theorem hexDigitVal_hexDigitChar : ∀ n, n < 16 →
    hexDigitVal (hexDigitChar n) = some n := by decide

theorem hexDigitChar_ne_dollar : ∀ n, n < 16 → hexDigitChar n ≠ '$' := by decide

theorem dollar_not_mem_bytesToHex (bs : List Nat) (hbs : ∀ b ∈ bs, b < 256) :
    '$' ∉ bytesToHex bs := by
  induction bs with
  | nil => simp [bytesToHex]
  | cons b bs ih =>
      have hb : b < 256 := hbs b (List.mem_cons_self b bs)
      have hhi : b / 16 < 16 := by omega
      have hlo : b % 16 < 16 := Nat.mod_lt _ (by norm_num)
      intro hmem
      simp only [bytesToHex, List.mem_cons] at hmem
      rcases hmem with h | h | h
      · exact hexDigitChar_ne_dollar _ hhi h.symm
      · exact hexDigitChar_ne_dollar _ hlo h.symm
      · exact ih (fun x hx => hbs x (List.mem_cons_of_mem b hx)) h

theorem bytesFromHex_bytesToHex (bs : List Nat) (hbs : ∀ b ∈ bs, b < 256) :
    bytesFromHex (bytesToHex bs) = some bs := by
  induction bs with
  | nil => rfl
  | cons b bs ih =>
      have hb : b < 256 := hbs b (List.mem_cons_self b bs)
      have hhi : b / 16 < 16 := by omega
      have hlo : b % 16 < 16 := Nat.mod_lt _ (by norm_num)
      simp only [bytesToHex, bytesFromHex,
        hexDigitVal_hexDigitChar _ hhi, hexDigitVal_hexDigitChar _ hlo,
        ih (fun x hx => hbs x (List.mem_cons_of_mem b hx)),
        Option.bind_some, Option.some_bind]
      have hval : b / 16 * 16 + b % 16 = b := by omega
      simp [hval]

theorem taggedParse_hash_password (kdf : Kdf) (salt : List Nat) (password : Str)
    (hsalt : ∀ b ∈ salt, b < 256) (hdk : ∀ b ∈ kdf password salt, b < 256) :
    taggedParse (hash_password kdf salt password) =
      some (salt, kdf password salt) := by
  have hns : '$' ∉ bytesToHex salt := dollar_not_mem_bytesToHex salt hsalt
  have hnt : '$' ∉ tagName := by decide
  simp only [taggedParse, hash_password, pySplit]
  rw [splitMaxAux_sep_chunk '$' _ tagName [] 1 hnt,
    splitMaxAux_sep_chunk '$' _ (bytesToHex salt) [] 0 hns,
    splitMaxAux_budget_zero]
  simp only [List.reverse_nil, List.nil_append]
  simp [bytesFromHex_bytesToHex salt hsalt,
    bytesFromHex_bytesToHex (kdf password salt) hdk]

/-! ## Theorems for the claims -/

/-- Claim C1: for every password and every 16-byte salt the random source may
draw, verifying the password against the stored representation produced by
hashing it with that salt succeeds: `_verify_password(p, _hash_password(p))`
is `True`. The key-derivation primitive is an arbitrary function producing
bytes, applied identically in both operations. -/
theorem verify_password_of_hash_password (kdf : Kdf) (password : Str)
    (salt : List Nat) (_hlen : salt.length = 16)
    (hsalt : ∀ b ∈ salt, b < 256) (hdk : ∀ b ∈ kdf password salt, b < 256) :
    verify_password kdf password (hash_password kdf salt password) = true := by
  have hstart : pyStartswith (hash_password kdf salt password) pbkdf2Tag = true := by
    have hshape : hash_password kdf salt password =
        pbkdf2Tag ++ (bytesToHex salt ++ '$' :: bytesToHex (kdf password salt)) := by
      simp [hash_password, pbkdf2Tag]
    rw [hshape]
    exact pyStartswith_append _ _
  rw [verify_password, if_pos hstart, taggedVerify,
    taggedParse_hash_password kdf salt password hsalt hdk]
  simp [compareDigest]

/-- Witness for C1: a concrete key-derivation function, salt and password. -/
theorem verify_password_of_hash_password_witness :
    verify_password (fun _ _ => [171, 5]) ['a']
      (hash_password (fun _ _ => [171, 5]) (List.replicate 16 0) ['a']) = true :=
  verify_password_of_hash_password (fun _ _ => [171, 5]) ['a']
    (List.replicate 16 0) (by decide) (by decide) (by decide)

/-- Claim C7: `_verify_password` is a total function (it never raises: the
embedding returns a Boolean on every input), and on every stored value that
carries the `pbkdf2_sha256$` tag but is malformed on the tagged path (wrong
field count from the split, or non-hex salt or key, i.e. the parse stage
fails), it returns `false` for every candidate password. -/
theorem verify_password_malformed_tagged_false (kdf : Kdf) (password stored : Str)
    (htag : pyStartswith stored pbkdf2Tag = true)
    (hparse : taggedParse stored = none) :
    verify_password kdf password stored = false := by
  rw [verify_password, if_pos htag, taggedVerify, hparse]

/-- Witness for C7: a tagged stored value with a non-hex salt field. -/
theorem verify_password_malformed_tagged_false_witness :
    verify_password (fun _ _ => []) ['x']
      (pbkdf2Tag ++ ['z', 'z', '$', 'a', 'a']) = false :=
  verify_password_malformed_tagged_false (fun _ _ => []) ['x']
    (pbkdf2Tag ++ ['z', 'z', '$', 'a', 'a']) (by decide) (by decide)

/-- Claim C8: on every stored value that does not carry the algorithm tag
(legacy encoding), `_verify_password` is a direct string comparison between
the candidate password and the stored value. -/
theorem verify_password_legacy (kdf : Kdf) (password stored : Str)
    (htag : pyStartswith stored pbkdf2Tag = false) :
    verify_password kdf password stored = (password == stored) := by
  simp [verify_password, htag]

/-- Witness for C8: `verify("hunter2", "hunter2")` is `true` and
`verify("wrong", "hunter2")` is `false` on the legacy path. -/
theorem verify_password_legacy_witness :
    verify_password (fun _ _ => []) ['h', 'u', 'n', 't', 'e', 'r', '2']
      ['h', 'u', 'n', 't', 'e', 'r', '2'] = true ∧
    verify_password (fun _ _ => []) ['w', 'r', 'o', 'n', 'g']
      ['h', 'u', 'n', 't', 'e', 'r', '2'] = false :=
  ⟨(verify_password_legacy (fun _ _ => []) ['h', 'u', 'n', 't', 'e', 'r', '2']
      ['h', 'u', 'n', 't', 'e', 'r', '2'] (by decide)).trans (by decide),
   (verify_password_legacy (fun _ _ => []) ['w', 'r', 'o', 'n', 'g']
      ['h', 'u', 'n', 't', 'e', 'r', '2'] (by decide)).trans (by decide)⟩

/-- Claim C10: every stored value starting with the literal `pbkdf2_sha256$`
is handled on the tagged-hash path (never compared as legacy plain text), and
consequently there is a string — the tag literal itself, a possible legacy
plain-text password — that starts with the tag, equals the candidate password
exactly, and still fails verification under every key-derivation function. -/
theorem tagged_stored_never_legacy :
    (∀ (kdf : Kdf) (password stored : Str),
        pyStartswith stored pbkdf2Tag = true →
        verify_password kdf password stored = taggedVerify kdf password stored) ∧
    pyStartswith pbkdf2Tag pbkdf2Tag = true ∧
    (pbkdf2Tag == pbkdf2Tag) = true ∧
    (∀ kdf : Kdf, verify_password kdf pbkdf2Tag pbkdf2Tag = false) := by
  refine ⟨fun kdf p s h => by rw [verify_password, if_pos h], by decide, by decide,
    fun kdf => ?_⟩
  rw [verify_password, if_pos (by decide), taggedVerify,
    show taggedParse pbkdf2Tag = none from by decide]

/-- Witness for C10: the tagged-path equation at a concrete stored value. -/
theorem tagged_stored_never_legacy_witness :
    verify_password (fun _ _ => []) ['x'] pbkdf2Tag =
      taggedVerify (fun _ _ => []) ['x'] pbkdf2Tag :=
  tagged_stored_never_legacy.1 (fun _ _ => []) ['x'] pbkdf2Tag (by decide)

/-- The four questions of the spec's concrete scenario (§8): correct letters
A, B, C, D, question ids 1..4. -/
def scenarioQuestions : List Question :=
  [⟨1, [], ['A'], [], [], [], []⟩, ⟨2, [], ['B'], [], [], [], []⟩,
   ⟨3, [], ['C'], [], [], [], []⟩, ⟨4, [], ['D'], [], [], [], []⟩]

/-- The scenario selections: q1 "A", q2 "b", q3 "X", q4 absent. -/
def scenarioSelections : List (Int × Str) :=
  [(1, ['A']), (2, ['b']), (3, ['X'])]

/-- Claim C2 counterexample: on the claim's own scenario,
`ResultsWidget.calculate_score` — one of the two correctness computations the
claim covers — compares the raw selection to the correct letter
case-sensitively, so "b" does not match "B": correctCount is 1 there, not 2. -/
theorem calculate_score_case_sensitive_counterexample :
    (calculate_score scenarioQuestions scenarioSelections).correct = 1 ∧
    (scoreItem scenarioSelections ⟨2, [], ['B'], [], [], [], []⟩).is_correct = false ∧
    (1 : Nat) ≠ 2 := by decide

/-- Claim C2 (amended): on the attempt-recording path
(`QuizApp.on_quiz_completed`), per-question correctness follows the claimed
rule — whenever the question's correct letter is not pure whitespace, a row is
correct exactly when a selection is present and matches the correct letter
case-insensitively and whitespace-trimmed (absent selections count as
unanswered, out-of-range values are simply unequal, nothing is raised) — and
on the scenario this path yields correctCount 2. `ResultsWidget.calculate_score`
instead compares the raw strings, yielding 1 on the same scenario. -/
theorem scoreQuestion_case_insensitive :
    (∀ (answers : List (Int × Str)) (q : Question),
        pyStrip q.correct_answer ≠ [] →
        (scoreQuestion answers q).is_correct =
          specIsCorrect (dictGet answers q.id) q.correct_answer) ∧
    (on_quiz_completed none none 0 scenarioQuestions scenarioSelections).correct_count
      = 2 := by
  constructor
  · intro answers q hq
    simp only [scoreQuestion, specIsCorrect]
    cases h : dictGet answers q.id with
    | none => simp
    | some s =>
        by_cases hs : s = []
        · subst hs
          simp only [if_pos rfl]
          cases hpc : pyStrip q.correct_answer with
          | nil => exact absurd hpc hq
          | cons a l => simp [pyUpper, pyStrip, hpc]
        · simp [if_neg hs]
  · decide

/-- Witness for C2 (amended): the rule instantiated at scenario question 2. -/
theorem scoreQuestion_case_insensitive_witness :
    (scoreQuestion scenarioSelections ⟨2, [], ['B'], [], [], [], []⟩).is_correct =
      specIsCorrect (dictGet scenarioSelections 2) ['B'] :=
  scoreQuestion_case_insensitive.1 scenarioSelections
    ⟨2, [], ['B'], [], [], [], []⟩ (by decide)

/-- Eight questions with correct letter A, ids 1..8, for the percentage
counterexample. -/
def eightQuestions : List Question :=
  [⟨1, [], ['A'], [], [], [], []⟩, ⟨2, [], ['A'], [], [], [], []⟩,
   ⟨3, [], ['A'], [], [], [], []⟩, ⟨4, [], ['A'], [], [], [], []⟩,
   ⟨5, [], ['A'], [], [], [], []⟩, ⟨6, [], ['A'], [], [], [], []⟩,
   ⟨7, [], ['A'], [], [], [], []⟩, ⟨8, [], ['A'], [], [], [], []⟩]

/-- Claim C3 counterexample: with 1 correct answer out of 8 questions the code
computes percentage 12.5 exactly (float division, no rounding), whereas the
claim's `round(1/8*100)` with ties away from zero is 13. -/
theorem calculate_score_percentage_unrounded_counterexample :
    (calculate_score eightQuestions [(1, ['A'])]).percentage = 25 / 2 ∧
    (25 / 2 : ℚ) ≠ 13 := by
  constructor
  · have h : List.countP (fun i => i.is_correct)
        (List.map (scoreItem [(1, ['A'])]) eightQuestions) = 1 := by decide
    have hl : eightQuestions.length = 8 := by decide
    simp only [calculate_score, h, hl]
    norm_num
  · norm_num

/-- Claim C3 (amended): for a scored attempt with totalQuestions > 0 the
percentage equals the exact (unrounded) value correctCount / totalQuestions
* 100, and for totalQuestions == 0 the percentage is 0 and correctCount is 0. -/
theorem calculate_score_percentage_exact (questions : List Question)
    (answers : List (Int × Str)) :
    (0 < (calculate_score questions answers).total →
      (calculate_score questions answers).percentage =
        ((calculate_score questions answers).correct : ℚ) /
          ((calculate_score questions answers).total : ℚ) * 100) ∧
    ((calculate_score questions answers).total = 0 →
      (calculate_score questions answers).correct = 0 ∧
      (calculate_score questions answers).percentage = 0) := by
  constructor
  · intro h
    simp only [calculate_score] at h ⊢
    rw [if_pos h]
  · intro h
    simp only [calculate_score] at h ⊢
    have hq : questions = [] := List.length_eq_zero.mp h
    subst hq
    simp

/-- Witness for C3 (amended): the exact-percentage equation on the scenario. -/
theorem calculate_score_percentage_exact_witness :
    (calculate_score scenarioQuestions scenarioSelections).percentage =
      ((calculate_score scenarioQuestions scenarioSelections).correct : ℚ) /
        ((calculate_score scenarioQuestions scenarioSelections).total : ℚ) * 100 :=
  (calculate_score_percentage_exact scenarioQuestions scenarioSelections).1
    (by decide)

/-- Claim C4 counterexample: with a logged-in user whose id is 0, a positive
category id and one question, `on_quiz_completed` DOES call the storage layer
(the code only checks `user_id is not None`, not positivity): it issues an
Attempt insert with user_id 0 and an Attempt Answer insert. -/
theorem record_attempt_userid_zero_counterexample :
    (on_quiz_completed (some 7) (some 0) 1
        [⟨1, [], ['A'], [], [], [], []⟩] []).calls =
      [DbCall.createAttempt 0 1 1 0 0, DbCall.addAnswer 7 1 none ['A'] false] ∧
    (on_quiz_completed (some 7) (some 0) 1
        [⟨1, [], ['A'], [], [], [], []⟩] []).calls ≠ [] := by decide

/-- Claim C4 (amended): the attempt-persistence step of `on_quiz_completed` is
a no-op — no storage call at all, no exception, and the results page still
loads — when the user is absent (`None`), or the category id is non-positive,
or there are zero questions. (A present user id of 0 or less does NOT skip
persistence: the code tests only `user_id is not None`.) -/
theorem record_attempt_skip (createResult : Option Int) (user : Option Int)
    (category_id : Int) (questions : List Question)
    (answers : List (Int × Str))
    (h : user = none ∨ category_id ≤ 0 ∨ questions = []) :
    (on_quiz_completed createResult user category_id questions answers).calls
        = [] ∧
    (on_quiz_completed createResult user category_id questions
        answers).results_loaded = true := by
  rcases h with h | h | h
  · subst h; exact ⟨rfl, rfl⟩
  · refine ⟨?_, rfl⟩
    cases user with
    | none => rfl
    | some uid =>
        have hcond : ¬ (0 < category_id ∧ 0 < questions.length) :=
          fun hc => absurd hc.1 (not_lt.mpr h)
        simp [on_quiz_completed, if_neg hcond]
  · subst h
    refine ⟨?_, rfl⟩
    cases user with
    | none => rfl
    | some uid => simp [on_quiz_completed]

/-- Witness for C4 (amended): category id 0 with a logged-in user. -/
theorem record_attempt_skip_witness :
    (on_quiz_completed (some 7) (some 3) 0
        [⟨1, [], ['A'], [], [], [], []⟩] []).calls = [] ∧
    (on_quiz_completed (some 7) (some 3) 0
        [⟨1, [], ['A'], [], [], [], []⟩] []).results_loaded = true :=
  record_attempt_skip (some 7) (some 3) 0
    [⟨1, [], ['A'], [], [], [], []⟩] [] (Or.inr (Or.inl (by norm_num)))

/-- Claim C5: for a valid recorded attempt (user present with positive id,
positive category id, at least one question, Attempt insert returns an id),
the storage trace is exactly one Attempt insert followed by one Attempt Answer
insert per breakdown entry (so exactly `questions.length` of them), and every
Attempt Answer insert references the id returned by the Attempt insert. -/
theorem record_attempt_valid_calls (attempt_id user_id category_id : Int)
    (questions : List Question) (answers : List (Int × Str))
    (_hu : 0 < user_id) (hc : 0 < category_id) (hq : questions ≠ []) :
    (on_quiz_completed (some attempt_id) (some user_id) category_id questions
        answers).calls =
      DbCall.createAttempt user_id category_id questions.length
          ((questions.map (scoreQuestion answers)).countP (fun r => r.is_correct))
          answers.length ::
        (questions.map (scoreQuestion answers)).map (fun r =>
          DbCall.addAnswer attempt_id r.q_id r.selected_letter r.correct_letter
            r.is_correct) ∧
    ((on_quiz_completed (some attempt_id) (some user_id) category_id questions
        answers).calls.countP DbCall.isCreate) = 1 ∧
    ((on_quiz_completed (some attempt_id) (some user_id) category_id questions
        answers).calls.countP DbCall.isAnswer) = questions.length ∧
    (∀ c ∈ (on_quiz_completed (some attempt_id) (some user_id) category_id
        questions answers).calls,
      c.isAnswer = true → c.answerRef = some attempt_id) := by
  have hcond : 0 < category_id ∧ 0 < questions.length :=
    ⟨hc, List.length_pos.mpr hq⟩
  have hcalls : (on_quiz_completed (some attempt_id) (some user_id) category_id
      questions answers).calls =
      DbCall.createAttempt user_id category_id questions.length
          ((questions.map (scoreQuestion answers)).countP (fun r => r.is_correct))
          answers.length ::
        (questions.map (scoreQuestion answers)).map (fun r =>
          DbCall.addAnswer attempt_id r.q_id r.selected_letter r.correct_letter
            r.is_correct) := by
    simp [on_quiz_completed, if_pos hcond]
  refine ⟨hcalls, ?_, ?_, ?_⟩
  · rw [hcalls]
    simp [List.countP_cons, List.countP_map, DbCall.isCreate, Function.comp_def]
  · rw [hcalls]
    simp [List.countP_cons, List.countP_map, DbCall.isAnswer, Function.comp_def]
  · rw [hcalls]
    intro c hcmem hans
    rcases List.mem_cons.mp hcmem with h | h
    · subst h; simp [DbCall.isAnswer] at hans
    · rcases List.mem_map.mp h with ⟨r, -, rfl⟩
      rfl

/-- Five questions (ids 1..5) for the C5 witness. -/
def fiveQuestions : List Question :=
  [⟨1, [], ['A'], [], [], [], []⟩, ⟨2, [], ['B'], [], [], [], []⟩,
   ⟨3, [], ['C'], [], [], [], []⟩, ⟨4, [], ['D'], [], [], [], []⟩,
   ⟨5, [], ['A'], [], [], [], []⟩]

/-- Witness for C5: a valid 5-question attempt records exactly 5 answer rows. -/
theorem record_attempt_valid_calls_witness :
    ((on_quiz_completed (some 42) (some 3) 2 fiveQuestions
        [(1, ['A']), (2, ['B']), (3, ['C']), (4, ['D']), (5, ['B'])]).calls.countP
      DbCall.isAnswer) = fiveQuestions.length :=
  (record_attempt_valid_calls 42 3 2 fiveQuestions
      [(1, ['A']), (2, ['B']), (3, ['C']), (4, ['D']), (5, ['B'])]
      (by norm_num) (by norm_num) (by decide)).2.2.1

/-- Claim C6 counterexample: a selection whose question id (2) is not among
the questions (single question id 1) is NOT ignored by `on_quiz_completed`:
answeredCount is `len(answers)` = 1, while the number of selections whose id
is among the questions is 0. -/
theorem answered_count_counterexample :
    (on_quiz_completed none none 0 [⟨1, [], ['A'], [], [], [], []⟩]
        [(2, ['A'])]).answered_count = 1 ∧
    List.countP
      (fun kv => (([⟨1, [], ['A'], [], [], [], []⟩] : List Question).map
        Question.id).contains kv.fst)
      ([(2, ['A'])] : List (Int × Str)) = 0 ∧
    (1 : Nat) ≠ 0 := by decide

/-- Claim C6 (amended): answeredCount equals the size of the selections
mapping itself — `len(answers)` — whether or not the selected question ids
occur among the questions; totalQuestions equals the number of questions. -/
theorem answered_count_is_dict_size (createResult : Option Int)
    (user : Option Int) (category_id : Int) (questions : List Question)
    (answers : List (Int × Str))
    (_hnodup : (answers.map Prod.fst).Nodup) :
    (on_quiz_completed createResult user category_id questions
        answers).answered_count = answers.length ∧
    (on_quiz_completed createResult user category_id questions
        answers).total_questions = questions.length :=
  ⟨rfl, rfl⟩

/-- Witness for C6 (amended): the counts on the scenario inputs. -/
theorem answered_count_is_dict_size_witness :
    (on_quiz_completed none none 0 scenarioQuestions
        scenarioSelections).answered_count = scenarioSelections.length ∧
    (on_quiz_completed none none 0 scenarioQuestions
        scenarioSelections).total_questions = scenarioQuestions.length :=
  answered_count_is_dict_size none none 0 scenarioQuestions scenarioSelections
    (by decide)

/-- Claim C9: the results page is loaded with the scored results on every run
of `on_quiz_completed` (persistence success, failure, or skip), and when the
Attempt insert fails (`create_quiz_attempt` returns `None`) no Attempt Answer
insert is made. -/
theorem results_always_shown :
    (∀ (createResult : Option Int) (user : Option Int) (category_id : Int)
        (questions : List Question) (answers : List (Int × Str)),
        (on_quiz_completed createResult user category_id questions
            answers).results_loaded = true ∧
        (on_quiz_completed createResult user category_id questions
            answers).per_question = questions.map (scoreQuestion answers)) ∧
    (∀ (user_id category_id : Int) (questions : List Question)
        (answers : List (Int × Str)),
        0 < category_id → questions ≠ [] →
        (on_quiz_completed none (some user_id) category_id questions
            answers).calls.countP DbCall.isAnswer = 0) := by
  constructor
  · intro cr user cid qs ans
    exact ⟨rfl, rfl⟩
  · intro uid cid qs ans hc hq
    have hcond : 0 < cid ∧ 0 < qs.length := ⟨hc, List.length_pos.mpr hq⟩
    simp [on_quiz_completed, if_pos hcond, DbCall.isAnswer, List.countP_cons]

/-- Witness for C9: a failed Attempt insert on the scenario records no answer
rows. -/
theorem results_always_shown_witness :
    (on_quiz_completed none (some 3) 2 scenarioQuestions
        scenarioSelections).calls.countP DbCall.isAnswer = 0 :=
  results_always_shown.2 3 2 scenarioQuestions scenarioSelections
    (by norm_num) (by decide)

end Quiz

